import Mathlib

/-!
Verification of the OpenWebUI TypeScript client (`src/index.ts`) against its
natural-language specification.  The client is a thin authenticated HTTP
façade; the verified core is the request executor (request construction,
timeout classification, HTTP-error classification), the model-list response
normalizer, and the constructor's configuration validation.

The TypeScript is shallowly embedded: JSON values become an inductive type
with JavaScript truthiness, the constructor and the pure parts of `request`
become total Lean functions, and the transport outcome (what `fetch`
returned or threw) is passed in explicitly as data.
-/

namespace OpenWebUI

/-- JSON values as produced by `response.json()` / consumed by
`JSON.stringify`.  Numbers are modelled as integers; none of the verified
code paths inspects numeric values beyond JavaScript truthiness. -/
inductive Json : Type where
  | null : Json
  | bool (b : Bool) : Json
  | num (n : Int) : Json
  | str (s : String) : Json
  | arr (elems : List Json) : Json
  | obj (fields : List (String × Json)) : Json

/-- JavaScript truthiness of a JSON value: `null`, `false`, `0` and `""`
are falsy; every array and object (including `[]` and an empty object) is
truthy. -/
def jsTruthy : Json → Bool
  | Json.null => false
  | Json.bool b => b
  | Json.num n => decide (n ≠ 0)
  | Json.str s => decide (s ≠ "")
  | Json.arr _ => true
  | Json.obj _ => true

/-- Truthiness of an optional value: an absent (`undefined`) value is
falsy, a present one is as truthy as the value itself.  This models
`options.body && ...` where `body?: unknown`. -/
def jsTruthyOpt : Option Json → Bool
  | none => false
  | some v => jsTruthy v

/-- First binding of a key in an object's field list, modelling property
access `o[k]` / `k in o` on an object decoded from JSON (keys unique). -/
def lookupField : List (String × Json) → String → Option Json
  | [], _ => none
  | (k, v) :: rest, key => if k = key then some v else lookupField rest key

mutual

/-- `JSON.stringify` on the embedded JSON values (string escaping elided:
the verified properties never inspect the serialized text of a string
containing metacharacters). -/
def Json.stringify : Json → String
  | Json.null => "null"
  | Json.bool b => if b then "true" else "false"
  | Json.num n => toString n
  | Json.str s => "\"" ++ s ++ "\""
  | Json.arr elems => "[" ++ stringifyElems elems ++ "]"
  | Json.obj fields => "\x7b" ++ stringifyFields fields ++ "\x7d"

/-- Comma-separated serialization of an array's elements. -/
def stringifyElems : List Json → String
  | [] => ""
  | [v] => Json.stringify v
  | v :: rest => Json.stringify v ++ "," ++ stringifyElems rest

/-- Comma-separated serialization of an object's fields. -/
def stringifyFields : List (String × Json) → String
  | [] => ""
  | [(k, v)] => "\"" ++ k ++ "\":" ++ Json.stringify v
  | (k, v) :: rest => "\"" ++ k ++ "\":" ++ Json.stringify v ++ "," ++ stringifyFields rest

end

/-! ## Client construction (`OpenWebUIClient.constructor`, index.ts 43-55) -/

/-- `OpenWebUIConfig` from types.ts: required `url` and `apiKey` strings,
optional `timeout` in milliseconds.  A missing or empty string is the falsy
case of the constructor's `!config.url` / `!config.apiKey` guards, so the
two required fields are modelled as plain strings with `""` for the falsy
value. -/
structure OpenWebUIConfig where
  url : String
  apiKey : String
  timeout : Option Nat
deriving Repr, DecidableEq

/-- The private immutable state a successfully constructed client holds:
`this.url`, `this.apiKey`, `this.timeout`. -/
structure ClientState where
  url : String
  apiKey : String
  timeout : Nat
deriving Repr, DecidableEq

/-- `url.replace(/\/$/, '')`: remove one trailing slash if present (the
anchored regex matches at most the final character). -/
def stripTrailingSlash (s : String) : String :=
  if s.data.getLast? = some '/' then String.mk s.data.dropLast else s

/-- The constructor, index.ts lines 43-55: reject a falsy `url`, then a
falsy `apiKey`, then store the slash-stripped url, the key, and
`config.timeout ?? 30000` (the nullish-coalescing default, which keeps an
explicit `0`). -/
def construct (config : OpenWebUIConfig) : Except String ClientState :=
  if config.url = "" then
    Except.error "URL is required"
  else if config.apiKey = "" then
    Except.error "API key is required"
  else
    Except.ok
      { url := stripTrailingSlash config.url
        apiKey := config.apiKey
        timeout := config.timeout.getD 30000 }

/-! ## The request executor (`request`, index.ts 63-109) -/

/-- `RequestOptions` from types.ts: optional method, optional body,
optional extra headers. -/
structure RequestOptions where
  method : Option String := none
  body : Option Json := none
  headers : List (String × String) := []

/-- `options.method || 'GET'` — the default, also taken when the supplied
method is the falsy empty string. -/
def resolveMethod (options : RequestOptions) : String :=
  match options.method with
  | none => "GET"
  | some m => if m = "" then "GET" else m

/-- Object-spread update of an association list: an existing key is
overwritten in place, a new key is appended. -/
def spreadEntry (entries : List (String × String)) (kv : String × String) :
    List (String × String) :=
  if entries.any (fun p => p.1 = kv.1) then
    entries.map (fun p => if p.1 = kv.1 then (p.1, kv.2) else p)
  else
    entries ++ [kv]

/-- The header object of index.ts lines 70-74: `Authorization` and
`Content-Type` defaults, then `...options.headers` spread over them. -/
def buildHeaders (apiKey : String) (options : RequestOptions) :
    List (String × String) :=
  options.headers.foldl spreadEntry
    [("Authorization", "Bearer " ++ apiKey), ("Content-Type", "application/json")]

/-- The `fetchOptions` value handed to `fetch`: method, headers, the
timeout wired into `AbortSignal.timeout(this.timeout)`, and the optional
serialized body. -/
structure FetchOptions where
  method : String
  headers : List (String × String)
  signalTimeoutMs : Nat
  body : Option String

/-- Request construction, index.ts lines 67-84: resolve the method, build
the headers, arm the timeout signal, and attach `JSON.stringify(options.body)`
only when `options.body` is truthy AND the method is not GET. -/
def buildFetchOptions (apiKey : String) (timeout : Nat)
    (options : RequestOptions) : FetchOptions :=
  let method := resolveMethod options
  { method := method
    headers := buildHeaders apiKey options
    signalTimeoutMs := timeout
    body :=
      if jsTruthyOpt options.body && method ≠ "GET" then
        options.body.map Json.stringify
      else
        none }

/-- `response.ok` of the WHATWG fetch `Response`: status in 200..299. -/
def statusOk (status : Nat) : Bool :=
  200 ≤ status && status ≤ 299

/-- `contentType.includes('application/json')` — substring test, modelled
by splitting on the needle. -/
def contentTypeIncludesJson : Option String → Bool
  | none => false
  | some ct => decide (2 ≤ ((ct.splitOn "application/json").length))

/-- What the awaited `fetch` call produced inside the `try` block: either
a settled `Response` (status, content-type header, body — the body is kept
as text, with `response.json()` modelled by the `parse` argument of
`request`), or a thrown `Error` carrying a `name` and `message`, or a
thrown non-`Error` value. -/
inductive FetchResult : Type where
  | resp (status : Nat) (contentType : Option String) (body : String) : FetchResult
  | thrownError (name : String) (message : String) : FetchResult
  | thrownNonError : FetchResult

/-- A settled call: the decoded value (parsed JSON when the content-type
says JSON, raw text otherwise) or the message of the raised `Error`. -/
inductive ReqResult : Type where
  | jsonVal (v : Json) : ReqResult
  | textVal (s : String) : ReqResult
  | failure (message : String) : ReqResult

/-- The body of `request` after the fetch settles, index.ts lines 86-108.
A non-ok status raises `HTTP <status>: <bodyText>` (that `Error` has name
`Error`, so the catch block's name test rethrows it unchanged); a thrown
error named `TimeoutError` or `AbortError` becomes
`Request timeout after <timeout>ms`; any other `Error` is rethrown as-is;
a thrown non-`Error` becomes `Unknown error occurred`.  `parse` stands for
`response.json()`. -/
def request (timeout : Nat) (parse : String → Json) (fr : FetchResult) :
    ReqResult :=
  match fr with
  | FetchResult.resp status contentType body =>
      if !statusOk status then
        ReqResult.failure ("HTTP " ++ toString status ++ ": " ++ body)
      else if contentTypeIncludesJson contentType then
        ReqResult.jsonVal (parse body)
      else
        ReqResult.textVal body
  | FetchResult.thrownError name message =>
      if name = "TimeoutError" || name = "AbortError" then
        ReqResult.failure ("Request timeout after " ++ toString timeout ++ "ms")
      else
        ReqResult.failure message
  | FetchResult.thrownNonError =>
      ReqResult.failure "Unknown error occurred"

/-! ## `getModels` normalization (index.ts 115-125) -/

/-- The response-shape normalization of `getModels` applied to the decoded
JSON of `GET /api/models`: a bare array is returned as-is; a truthy object
whose `data` property is an array yields that array; anything else raises
`Unexpected response format from /api/models`.  (`Array.isArray` picks out
exactly the `arr` case; `response && typeof response === 'object'` holds
for objects only, since `null` is falsy and arrays were already
returned.) -/
def getModels (response : Json) : Except String (List Json) :=
  match response with
  | Json.arr elems => Except.ok elems
  | Json.obj fields =>
      match lookupField fields "data" with
      | some (Json.arr elems) => Except.ok elems
      | _ => Except.error "Unexpected response format from /api/models"
  | _ => Except.error "Unexpected response format from /api/models"

/-! ## The public method surface of `OpenWebUIClient` (index.ts 38-262) -/

/-- The public methods declared on the `OpenWebUIClient` class, in source
order (`request` is private). -/
def clientPublicMethods : List String :=
  ["getModels", "createChatCompletion", "uploadFile", "addFileToKnowledge",
   "ollamaGenerate", "ollamaListModels", "ollamaEmbed", "customRequest"]

/-- The fixed (method, endpoint) pairs the class's endpoint-specific
callers pass to the executor; `uploadFile` builds its URL directly, and
`customRequest` forwards a caller-chosen endpoint.  The
`addFileToKnowledge` path is its template with the interpolated id
elided. -/
def clientEndpoints : List (String × String) :=
  [("GET", "/api/models"),
   ("POST", "/api/chat/completions"),
   ("POST", "/api/v1/files/"),
   ("POST", "/api/v1/knowledge/"),
   ("POST", "/ollama/api/generate"),
   ("GET", "/ollama/api/tags"),
   ("POST", "/ollama/api/embed")]

/-- Conversation methods documented in the repository's own QUICKSTART.md
(`getChat(chatId)`, `updateChat(chatId, payload)`, `deleteChat(chatId)`)
and listed in the specification's endpoint table as
GET/PATCH/DELETE `/api/chats/(id)`. -/
def documentedConversationMethods : List String :=
  ["getChat", "updateChat", "deleteChat"]

/-- Whether `p` is a leading path segment of `s`, character by
character. -/
def isPathPrefixOf (p s : String) : Bool :=
  p.data.isPrefixOf s.data

/-- The shape `getModels` accepts: a bare array, or an object whose
`data` property is an array. -/
def goodModelsShape (response : Json) : Bool :=
  match response with
  | Json.arr _ => true
  | Json.obj fields =>
      match lookupField fields "data" with
      | some (Json.arr _) => true
      | _ => false
  | _ => false

end OpenWebUI

deriving instance DecidableEq for Except

namespace OpenWebUI

/-- C1: `getModels` returns the same ordered list of models whether the
decoded response body is the bare array of models or an object whose
`data` field is that array: both normalize to exactly that list, order
preserved. -/
theorem getModels_shape_agnostic (fields : List (String × Json))
    (models : List Json)
    (h : lookupField fields "data" = some (Json.arr models)) :
    getModels (Json.arr models) = Except.ok models ∧
    getModels (Json.obj fields) = Except.ok models := by
  constructor
  · rfl
  · simp [getModels, h]

/-- Witness for C1: the two-model response `[m1, m2]` and its wrapped form
`(data: [m1, m2])` both normalize to `[m1, m2]`. -/
theorem getModels_shape_agnostic_witness :
    lookupField [("data", Json.arr [Json.str "m1", Json.str "m2"])] "data" =
      some (Json.arr [Json.str "m1", Json.str "m2"]) ∧
    getModels (Json.arr [Json.str "m1", Json.str "m2"]) =
      Except.ok [Json.str "m1", Json.str "m2"] ∧
    getModels (Json.obj [("data", Json.arr [Json.str "m1", Json.str "m2"])]) =
      Except.ok [Json.str "m1", Json.str "m2"] :=
  ⟨rfl, getModels_shape_agnostic
    [("data", Json.arr [Json.str "m1", Json.str "m2"])]
    [Json.str "m1", Json.str "m2"] rfl⟩

/-- C2: on any response whose status is outside the success range, the
request fails with the message `HTTP <status>: <body>` — the status code
and the body text appear verbatim in the message (exhibited by the two
decompositions). -/
theorem request_http_error (timeout status : Nat) (parse : String → Json)
    (contentType : Option String) (body : String)
    (h : statusOk status = false) :
    request timeout parse (FetchResult.resp status contentType body) =
      ReqResult.failure ("HTTP " ++ toString status ++ ": " ++ body) ∧
    (∃ pre post,
      "HTTP " ++ toString status ++ ": " ++ body = pre ++ toString status ++ post) ∧
    (∃ pre post,
      "HTTP " ++ toString status ++ ": " ++ body = pre ++ body ++ post) := by
  refine ⟨by simp [request, h],
    ⟨"HTTP ", ": " ++ body, by simp [String.append_assoc]⟩,
    ⟨"HTTP " ++ toString status ++ ": ", "", by simp⟩⟩

/-- Witness for C2: a 401 response with body `Unauthorized` fails with the
message `HTTP 401: Unauthorized`, which contains both `401` and
`Unauthorized`. -/
theorem request_http_error_witness :
    statusOk 401 = false ∧
    request 30000 (fun _ => Json.null) (FetchResult.resp 401 none "Unauthorized") =
      ReqResult.failure "HTTP 401: Unauthorized" :=
  ⟨by decide,
   (request_http_error 30000 401 (fun _ => Json.null) none "Unauthorized"
      (by decide)).1⟩

/-- C3: when the transport reports timeout or cancellation (a thrown error
named `TimeoutError` or `AbortError`), the request fails with
`Request timeout after <timeout>ms`, which carries the configured duration
(exhibited by the decomposition). -/
theorem request_timeout_error (timeout : Nat) (parse : String → Json)
    (name message : String)
    (h : name = "TimeoutError" ∨ name = "AbortError") :
    request timeout parse (FetchResult.thrownError name message) =
      ReqResult.failure ("Request timeout after " ++ toString timeout ++ "ms") ∧
    ∃ pre post,
      "Request timeout after " ++ toString timeout ++ "ms" =
        pre ++ toString timeout ++ post := by
  refine ⟨?_, "Request timeout after ", "ms", rfl⟩
  rcases h with h | h <;> simp [request, h]

/-- Witness for C3: with a configured timeout of 5000 ms, a transport
timeout yields the message `Request timeout after 5000ms`, which contains
`5000`. -/
theorem request_timeout_error_witness :
    (("TimeoutError" : String) = "TimeoutError" ∨
      ("TimeoutError" : String) = "AbortError") ∧
    request 5000 (fun _ => Json.null)
        (FetchResult.thrownError "TimeoutError" "The operation timed out") =
      ReqResult.failure "Request timeout after 5000ms" :=
  ⟨Or.inl rfl,
   (request_timeout_error 5000 (fun _ => Json.null) "TimeoutError"
      "The operation timed out" (Or.inl rfl)).1⟩

/-- C4: on any decoded body that is neither an array nor an object whose
`data` field is an array, `getModels` fails with
`Unexpected response format from /api/models`, a message naming the
endpoint `/api/models` (exhibited by the decomposition). -/
theorem getModels_bad_shape (response : Json)
    (h : goodModelsShape response = false) :
    getModels response =
      Except.error "Unexpected response format from /api/models" ∧
    ∃ pre post,
      "Unexpected response format from /api/models" =
        pre ++ "/api/models" ++ post := by
  refine ⟨?_, "Unexpected response format from ", "", by decide⟩
  cases response with
  | null => rfl
  | bool b => rfl
  | num n => rfl
  | str s => rfl
  | arr elems => simp [goodModelsShape] at h
  | obj fields =>
      rcases hl : lookupField fields "data" with _ | v
      · simp [getModels, hl]
      · rcases v with _ | b | n | s | elems | fs
        · simp [getModels, hl]
        · simp [getModels, hl]
        · simp [getModels, hl]
        · simp [getModels, hl]
        · simp [goodModelsShape, hl] at h
        · simp [getModels, hl]

/-- Witness for C4: the body `(unexpected: "format")` is rejected with the
endpoint-naming message. -/
theorem getModels_bad_shape_witness :
    goodModelsShape (Json.obj [("unexpected", Json.str "format")]) = false ∧
    getModels (Json.obj [("unexpected", Json.str "format")]) =
      Except.error "Unexpected response format from /api/models" :=
  ⟨rfl,
   (getModels_bad_shape (Json.obj [("unexpected", Json.str "format")]) rfl).1⟩

/-- C5: constructing a client with an empty base URL or an empty
credential fails immediately with a configuration error, and no client
state is ever produced. -/
theorem construct_rejects_empty (config : OpenWebUIConfig)
    (h : config.url = "" ∨ config.apiKey = "") :
    (∃ msg, construct config = Except.error msg) ∧
    ∀ st, construct config ≠ Except.ok st := by
  have herr : ∃ msg, construct config = Except.error msg := by
    rcases h with h | h
    · exact ⟨"URL is required", by simp [construct, h]⟩
    · by_cases hu : config.url = ""
      · exact ⟨"URL is required", by simp [construct, hu]⟩
      · exact ⟨"API key is required", by simp [construct, hu, h]⟩
  refine ⟨herr, fun st hok => ?_⟩
  rcases herr with ⟨msg, herr⟩
  rw [herr] at hok
  exact Except.noConfusion hok

/-- Witness for C5: an empty URL with a non-empty credential is
rejected. -/
theorem construct_rejects_empty_witness :
    (("" : String) = "" ∨ ("test-api-key" : String) = "") ∧
    ((∃ msg, construct { url := "", apiKey := "test-api-key", timeout := none } =
        Except.error msg) ∧
     ∀ st, construct { url := "", apiKey := "test-api-key", timeout := none } ≠
        Except.ok st) :=
  ⟨Or.inl rfl,
   construct_rejects_empty { url := "", apiKey := "test-api-key", timeout := none }
     (Or.inl rfl)⟩

/-- C6 counterexample: for the valid url `a/` (non-empty, but already
slash-terminated), constructing with `a/` stores base `a` while
constructing with `a/` + `/` = `a//` stores base `a/` — the two stored
bases differ, refuting "constructing with url and with url + \"/\" yields
the identical stored base" for every valid url.  (The second conjunct also
confirms the claim's last part: a url ending in two slashes keeps exactly
one.) -/
theorem construct_trailing_slash_counterexample :
    construct { url := "a/", apiKey := "k", timeout := none } =
      Except.ok { url := "a", apiKey := "k", timeout := 30000 } ∧
    construct { url := "a//", apiKey := "k", timeout := none } =
      Except.ok { url := "a/", apiKey := "k", timeout := 30000 } ∧
    ("a" : String) ≠ "a/" := by
  refine ⟨by decide, by decide, by decide⟩

/-- C6 amended: for every valid non-empty url and credential, construction
succeeds and stores url with exactly one trailing slash stripped if one is
present; appending `/` to any url strips back to exactly that url; and for
a url that does not already end in a slash, constructing with url and with
url + `/` yields the identical stored base. -/
theorem construct_strips_one_trailing_slash (url apiKey : String)
    (t : Option Nat) (hu : url ≠ "") (hk : apiKey ≠ "") :
    construct { url := url, apiKey := apiKey, timeout := t } =
      Except.ok { url := stripTrailingSlash url, apiKey := apiKey,
                  timeout := t.getD 30000 } ∧
    stripTrailingSlash (url ++ "/") = url ∧
    (url.data.getLast? ≠ some '/' → stripTrailingSlash url = url) := by
  refine ⟨by simp [construct, hu, hk], ?_, fun hns => ?_⟩
  · unfold stripTrailingSlash
    have hdata : (url ++ "/").data = url.data ++ ['/'] := rfl
    rw [hdata, List.getLast?_concat]
    simp [List.dropLast_concat]
  · unfold stripTrailingSlash
    rw [if_neg hns]

/-- Witness for C6 amended: url `http://h` (no trailing slash) and its
slash-terminated form store the same base `http://h`. -/
theorem construct_strips_one_trailing_slash_witness :
    (("http://h" : String) ≠ "" ∧ ("k" : String) ≠ "") ∧
    (construct { url := "http://h", apiKey := "k", timeout := none } =
       Except.ok { url := stripTrailingSlash "http://h", apiKey := "k",
                   timeout := 30000 } ∧
     stripTrailingSlash ("http://h" ++ "/") = "http://h" ∧
     (("http://h" : String).data.getLast? ≠ some '/' →
       stripTrailingSlash "http://h" = "http://h")) :=
  ⟨⟨by decide, by decide⟩,
   construct_strips_one_trailing_slash "http://h" "k" none
     (by decide) (by decide)⟩

/-- C7: with no timeout supplied the stored timeout is exactly 30000, and
an explicit timeout value (including 0) is stored verbatim. -/
theorem construct_timeout (url apiKey : String)
    (hu : url ≠ "") (hk : apiKey ≠ "") :
    construct { url := url, apiKey := apiKey, timeout := none } =
      Except.ok { url := stripTrailingSlash url, apiKey := apiKey,
                  timeout := 30000 } ∧
    ∀ t : Nat, construct { url := url, apiKey := apiKey, timeout := some t } =
      Except.ok { url := stripTrailingSlash url, apiKey := apiKey,
                  timeout := t } := by
  exact ⟨by simp [construct, hu, hk], fun t => by simp [construct, hu, hk]⟩

/-- Witness for C7: the default is 30000 and an explicit 0 is kept. -/
theorem construct_timeout_witness :
    (("http://h" : String) ≠ "" ∧ ("k" : String) ≠ "") ∧
    construct { url := "http://h", apiKey := "k", timeout := none } =
      Except.ok { url := stripTrailingSlash "http://h", apiKey := "k",
                  timeout := 30000 } ∧
    construct { url := "http://h", apiKey := "k", timeout := some 0 } =
      Except.ok { url := stripTrailingSlash "http://h", apiKey := "k",
                  timeout := 0 } :=
  ⟨⟨by decide, by decide⟩,
   (construct_timeout "http://h" "k" (by decide) (by decide)).1,
   (construct_timeout "http://h" "k" (by decide) (by decide)).2 0⟩

/-- C8: a request whose resolved method is GET (by default, explicitly, or
via a falsy method string) never attaches a body to the transport request,
whatever body the call site supplied. -/
theorem get_requests_never_carry_body (apiKey : String) (timeout : Nat)
    (options : RequestOptions) (h : resolveMethod options = "GET") :
    (buildFetchOptions apiKey timeout options).body = none := by
  simp [buildFetchOptions, h]

/-- Witness for C8: an explicit GET with a supplied (truthy) object body
still sends no body. -/
theorem get_requests_never_carry_body_witness :
    resolveMethod { method := some "GET",
                    body := some (Json.obj [("k", Json.str "v")]) } = "GET" ∧
    (buildFetchOptions "key" 30000
      { method := some "GET",
        body := some (Json.obj [("k", Json.str "v")]) }).body = none :=
  ⟨rfl,
   get_requests_never_carry_body "key" 30000
     { method := some "GET", body := some (Json.obj [("k", Json.str "v")]) }
     rfl⟩

/-- C10: on any method, a falsy supplied body (absent, null, empty string,
0, or false) is neither serialized nor attached: no body is set and the
whole transport request equals the one built with no body supplied. -/
theorem falsy_body_not_attached (apiKey : String) (timeout : Nat)
    (options : RequestOptions) (h : jsTruthyOpt options.body = false) :
    (buildFetchOptions apiKey timeout options).body = none ∧
    buildFetchOptions apiKey timeout options =
      buildFetchOptions apiKey timeout { options with body := none } := by
  constructor
  · simp [buildFetchOptions, h]
  · rcases options with ⟨m, b, hs⟩
    rcases b with _ | v
    · rfl
    · simp only [jsTruthyOpt] at h
      simp [buildFetchOptions, resolveMethod, buildHeaders, jsTruthyOpt, h]

/-- Witness for C10: a POST with the falsy empty-string body carries no
body and equals the body-less request. -/
theorem falsy_body_not_attached_witness :
    jsTruthyOpt (RequestOptions.body
      { method := some "POST", body := some (Json.str "") }) = false ∧
    (buildFetchOptions "key" 30000
        { method := some "POST", body := some (Json.str "") }).body = none ∧
    buildFetchOptions "key" 30000
        { method := some "POST", body := some (Json.str "") } =
      buildFetchOptions "key" 30000
        { method := some "POST", body := none } :=
  ⟨rfl,
   (falsy_body_not_attached "key" 30000
      { method := some "POST", body := some (Json.str "") } rfl).1,
   (falsy_body_not_attached "key" 30000
      { method := some "POST", body := some (Json.str "") } rfl).2⟩

/-- C9: the `OpenWebUIClient` class exposes NO dedicated conversation
operations — none of the documented `getChat` / `updateChat` /
`deleteChat` methods is among its public methods, no endpoint-specific
caller uses PATCH or DELETE, and no caller's fixed endpoint lies under
`/api/chats` — although the repository's own QUICKSTART.md documents those
three methods.  This records the divergence between the class and its own
documentation. -/
theorem no_conversation_methods :
    (∀ m ∈ documentedConversationMethods, m ∉ clientPublicMethods) ∧
    (∀ e ∈ clientEndpoints, e.1 ≠ "PATCH" ∧ e.1 ≠ "DELETE") ∧
    (∀ e ∈ clientEndpoints, isPathPrefixOf "/api/chats" e.2 = false) := by
  decide

end OpenWebUI
